import Mathlib

/-!
Verification of the football-theatre video matching-and-ranking core.

The definitions below are a shallow embedding of the Python source in
`scripts/collect_videos.py` and `scripts/enrich_sky.py`:

* pure string heuristics (substring containment, lowercasing) are modelled
  over `List Char` / `String`;
* Python `float` scores are modelled as exact integers in hundredths of a
  score point (every constant in the source is a multiple of 0.01, and only
  order and clamping matter for the properties);
* `datetime` values are modelled as day numbers (for dates) and seconds
  (for timestamps), with parsers covering the ISO-8601 shapes the scripts
  consume (`YYYY-MM-DD` and `YYYY-MM-DDTHH:MM:SS` with a UTC suffix);
  a parse failure is `none`, mirroring the `try/except` absorption in the
  source;
* Python `frozenset({home, away})` keys become `Finset String`, and the
  insertion-ordered dict becomes an association list.
-/

/-! ## Text utilities -/

/-- Lowercase a string to its character list, as Python `str.lower()` does on
ASCII input (`Char.toLower` only maps `A`–`Z`). -/
def charsLower (s : String) : List Char :=
  s.data.map Char.toLower

/-- Boolean prefix test on character lists. -/
def isPrefixCh : List Char → List Char → Bool
  | [], _ => true
  | _ :: _, [] => false
  | a :: as, b :: bs => a == b && isPrefixCh as bs

/-- Substring containment `needle ∈ hay`, as Python `needle in hay`
(the empty needle is contained in everything). -/
def containsSub (needle : List Char) : List Char → Bool
  | [] => needle.isEmpty
  | c :: rest => isPrefixCh needle (c :: rest) || containsSub needle rest

/-! ## Calendar arithmetic

Dates are proleptic-Gregorian day numbers (day 1 = 0001-01-01), so that the
difference of two day numbers is the exact day difference Python's
`date`/`timedelta` subtraction produces. -/

def isLeapYear (y : Nat) : Bool :=
  (y % 4 == 0 && y % 100 != 0) || y % 400 == 0

/-- Days in month `m` of year `y` (months 1–12; 0 for anything else). -/
def daysInMonth (y m : Nat) : Nat :=
  if m == 2 then (if isLeapYear y then 29 else 28)
  else if m == 4 || m == 6 || m == 9 || m == 11 then 30
  else if 1 ≤ m && m ≤ 12 then 31
  else 0

/-- Days in the months of year `y` strictly before month `m`. -/
def daysBeforeMonth (y m : Nat) : Nat :=
  (List.range m).foldl (fun acc k => acc + daysInMonth y k) 0

/-- Day number of the civil date `y-m-d` (valid input assumed). -/
def toDayNumber (y m d : Nat) : Nat :=
  let yp := y - 1
  365 * yp + yp / 4 + yp / 400 + daysBeforeMonth y m + d - yp / 100

/-! ## ISO date / timestamp parsers -/

/-- Parse a non-empty all-digit character list to its value. -/
def parseDigits (cs : List Char) : Option Nat :=
  if cs.isEmpty || !(cs.all Char.isDigit) then none
  else some (cs.foldl (fun acc c => 10 * acc + (c.toNat - 48)) 0)

/-- Validate a year/month/day triple and produce its day number. -/
def validDate (y m d : Nat) : Option Nat :=
  if 1 ≤ m && m ≤ 12 && 1 ≤ d && d ≤ daysInMonth y m then
    some (toDayNumber y m d)
  else none

/-- Parse a strict `YYYY-MM-DD` character list (zero-padded, as
`datetime.fromisoformat` requires) to a day number. -/
def parseYMDStrict (cs : List Char) : Option Nat :=
  match cs with
  | [y1, y2, y3, y4, h1, m1, m2, h2, d1, d2] =>
    if h1 == '-' && h2 == '-' then
      match parseDigits [y1, y2, y3, y4], parseDigits [m1, m2], parseDigits [d1, d2] with
      | some y, some m, some d => validDate y m d
      | _, _, _ => none
    else none
  | _ => none

/-- Split a character list at the first occurrence of `sep`, keeping both
sides (the separator is dropped from the right side). -/
def splitFirst (sep : Char) (cs : List Char) : List Char × Option (List Char) :=
  match cs.dropWhile (fun c => c != sep) with
  | [] => (cs.takeWhile (fun c => c != sep), none)
  | _ :: rest => (cs.takeWhile (fun c => c != sep), some rest)

/-- Parse a `Y-M-D` character list the way `strptime('%Y-%m-%d')` does:
four-digit year, one- or two-digit month and day. -/
def parseYMDLenient (cs : List Char) : Option Nat :=
  let (ys, rest1) := splitFirst '-' cs
  match rest1 with
  | none => none
  | some cs2 =>
    let (ms, rest2) := splitFirst '-' cs2
    match rest2 with
    | none => none
    | some ds =>
      if ys.length == 4 && 1 ≤ ms.length && ms.length ≤ 2
          && 1 ≤ ds.length && ds.length ≤ 2 then
        match parseDigits ys, parseDigits ms, parseDigits ds with
        | some y, some m, some d => validDate y m d
        | _, _, _ => none
      else none

/-- Parse a strict `HH:MM:SS` character list to seconds since midnight. -/
def parseHMS (cs : List Char) : Option Nat :=
  match cs with
  | [h1, h2, c1, m1, m2, c2, s1, s2] =>
    if c1 == ':' && c2 == ':' then
      match parseDigits [h1, h2], parseDigits [m1, m2], parseDigits [s1, s2] with
      | some h, some m, some s =>
        if h ≤ 23 && m ≤ 59 && s ≤ 59 then some (3600 * h + 60 * m + s) else none
      | _, _, _ => none
    else none
  | _ => none

/-- Model of `enrich_sky.parse_date`: an empty string is `None`; otherwise
trailing `Z`s are stripped, the part before any `T` is kept, and that part is
parsed as a strict ISO date. Returns a day number. -/
def parse_date (s : String) : Option Nat :=
  if s.isEmpty then none
  else
    let stripped := (s.data.reverse.dropWhile (fun c => c == 'Z')).reverse
    parseYMDStrict (stripped.takeWhile (fun c => c != 'T'))

/-- Model of `strptime(match_date, '%Y-%m-%d')` in the scorer, as a day
number. -/
def parse_match_date (s : String) : Option Nat :=
  parseYMDLenient s.data

/-- Model of `datetime.fromisoformat(published_at.replace('Z', '+00:00'))`
followed by subtraction against an aware UTC datetime, as seconds.

Only a timezone-aware result survives in the source: a naive datetime makes
the later aware-naive subtraction raise `TypeError`, which the caller's
`except` swallows — so timestamps without a UTC suffix are modelled as
`none`, as are date-only strings (a bare offset after a date is not valid
ISO-8601 for `fromisoformat`). -/
def parse_timestamp (s : String) : Option Int :=
  let cs := s.data
  let core : Option (List Char) :=
    if isPrefixCh ['Z'] cs.reverse then some (cs.take (cs.length - 1))
    else if isPrefixCh ['0', '0', ':', '0', '0', '+'] cs.reverse then
      some (cs.take (cs.length - 6))
    else none
  match core with
  | none => none
  | some cs1 =>
    match splitFirst 'T' cs1 with
    | (datePart, some timePart) =>
      match parseYMDStrict datePart, parseHMS timePart with
      | some dayNum, some secs => some ((dayNum : Int) * 86400 + (secs : Int))
      | _, _ => none
    | (_, none) => none

/-! ## Data model

Relevance scores: every score constant in the source is a multiple of 0.01
(`0.5`, `0.2`, `0.35`, `0.65`, `0.95`, …) and scores are only added,
subtracted, compared and clamped, so the embedding represents a score as an
integer number of hundredths (`50` = `0.5`, `65` = `0.65`, `100` = `1.0`).
This keeps ordering and clamping exact and every statement decidable. -/

/-- A video record (Python dict). Search-sourced records carry `isOfficial`;
playlist-sourced records carry `vtype` (the dict key `type`). -/
structure Video where
  videoId : String
  title : String
  channel : String
  channelId : String
  publishedAt : String
  thumbnail : String
  description : String
  isOfficial : Option Bool := none
  vtype : Option String := none
  relevanceScore : Int
  geoBlocked : List String
deriving DecidableEq, Repr

/-- A fixture entry of the season data (the fields the core reads). -/
structure Fixture where
  home : String
  away : String
  date : String
  score : String := ""
deriving DecidableEq, Repr

/-- A gameweek: the core only reads its fixture list. -/
structure Gameweek where
  fixtures : List Fixture
deriving DecidableEq, Repr

/-- A YouTube search result item (the snippet fields the collector reads). -/
structure SearchItem where
  videoId : String
  title : String
  channelTitle : String
  channelId : String
  publishedAt : String
  thumbnail : String
  description : String
deriving DecidableEq, Repr

/-- A playlist item (the snippet fields the enricher reads).
`resourceVideoId` is `snippet.resourceId.videoId`, which may be absent. -/
structure PlaylistItem where
  title : String
  resourceVideoId : Option String
  channelId : String
  publishedAt : String
  thumbnail : String
  description : String
deriving DecidableEq, Repr

/-! ## Static configuration tables (from `YouTubeVideoCollector.__init__`) -/

def broadcaster_whitelist : List String :=
  ["nbc sports", "sky sports", "sky sports football", "premier league",
   "tnt sports", "amazon prime video sport", "bein sports", "bt sport",
   "channel 4 sport", "channel 4", "itv sport"]

def club_channel_whitelist : List String :=
  ["arsenal", "liverpool", "chelsea", "manchester city", "manchester united",
   "man city", "man utd", "man united", "tottenham hotspur", "tottenham hotspur fc",
   "newcastle united", "aston villa", "west ham united",
   "brighton & hove albion", "brentford fc", "fulham fc",
   "crystal palace", "wolverhampton wanderers",
   "everton", "nottingham forest", "luton town", "burnley fc",
   "sheffield united", "afc bournemouth", "leicester city",
   "ipswich town", "southampton fc"]

def reupload_channel_patterns : List String :=
  ["cyber", "highlights hd", "sir-", "gameeworld", "understand facts", "sports pulse"]

def non_english_channels : List String :=
  ["telemundo", "espn deportes", "tudn", "univision", "bein sports arabic",
   "movistar", "dazn espanol", "canal+", "sky italia", "sportv",
   "canal do futebol", "eleven sports portugal", "eleven sports pl"]

def non_english_title_terms : List String :=
  ["resumen", "todos los goles", "en vivo", "destacados", "goles",
   "melhores momentos", "resumo", "zusammenfassung", "tore",
   "buts", "résumé", "maç özeti", "gollar"]

def excluded_terms : List String :=
  ["fifa", "pes", "fm24", "career mode", "prediction", "preview",
   "from the stands", "fan cam", "phone footage"]

def highlight_terms : List String :=
  ["highlights", "goals", "extended", "all goals", "match"]

/-- `geo_patterns`, in dict insertion order (matched case-sensitively). -/
def geo_patterns : List (String × List String) :=
  [("Sky Sports", ["US", "CA"]),
   ("NBC Sports", ["GB", "IE"]),
   ("BT Sport", ["US", "CA"]),
   ("beIN SPORTS", [])]

/-! ## collect_videos.py : relevance gate and scorer -/

/-- Model of `_is_relevant_video`: the title must mention a participant,
contain no excluded term and contain a highlight term. -/
def _is_relevant_video (title home away : String) : Bool :=
  let title_lower := charsLower title
  let has_team := containsSub (charsLower home) title_lower
    || containsSub (charsLower away) title_lower
  let has_excluded := excluded_terms.any (fun t => containsSub t.data title_lower)
  let has_highlights := highlight_terms.any (fun t => containsSub t.data title_lower)
  has_team && !has_excluded && has_highlights

/-- Channel-name test against the broadcaster whitelist (lowercased
substring match, as in `_calculate_relevance` / `_extract_video_metadata`). -/
def isBroadcaster (channel : String) : Bool :=
  broadcaster_whitelist.any (fun wl => containsSub wl.data (charsLower channel))

/-- Channel-name test against the club-channel whitelist. -/
def isClubChannel (channel : String) : Bool :=
  club_channel_whitelist.any (fun club => containsSub club.data (charsLower channel))

/-- Model of `_is_allcaps_channel`: more than five letters, all uppercase. -/
def _is_allcaps_channel (channel : String) : Bool :=
  let letters := channel.data.filter Char.isAlpha
  letters.length > 5 && letters == letters.map Char.toUpper

/-- Channel-name test against the reupload patterns. -/
def hasReuploadPattern (channel : String) : Bool :=
  reupload_channel_patterns.any (fun pat => containsSub pat.data (charsLower channel))

/-- Channel-name test against the non-English channel fragments. -/
def isNonEnglishChannel (channel : String) : Bool :=
  non_english_channels.any (fun ne => containsSub ne.data (charsLower channel))

/-- Title test against the non-English title keywords. -/
def hasNonEnglishTitleTerm (title : String) : Bool :=
  non_english_title_terms.any (fun t => containsSub t.data (charsLower title))

/-- The channel-trust tier adjustment of `_calculate_relevance` (in
hundredths): broadcasters +0.3, club channels +0.2, otherwise cumulative
all-caps (−0.35) and reupload-pattern (−0.3) penalties. -/
def channelTierAdj (channel : String) : Int :=
  if isBroadcaster channel then 30
  else if isClubChannel channel then 20
  else (if _is_allcaps_channel channel then -35 else 0)
    + (if hasReuploadPattern channel then -30 else 0)

/-- The publish-minus-match day difference used by the freshness step, when
the guard `if published_at and match_date:` passes and both parses succeed
(`none` otherwise; Python's `timedelta.days` floors, hence `Int.fdiv`). -/
def daysAfterOpt (published_at match_date : Option String) : Option Int :=
  match published_at, match_date with
  | some p, some m =>
    if p = "" || m = "" then none
    else
      match parse_timestamp p, parse_match_date m with
      | some ps, some d => some ((ps - (d : Int) * 86400).fdiv 86400)
      | _, _ => none
  | _, _ => none

/-- The freshness adjustment of `_calculate_relevance` (in hundredths):
+0.1 when published 0–3 days after the match, −0.05 when more than 7 days
after; a failed parse contributes nothing (the `except` swallows it). -/
def freshnessAdj (published_at match_date : Option String) : Int :=
  match daysAfterOpt published_at match_date with
  | some days_after =>
    if 0 ≤ days_after && days_after ≤ 3 then 10
    else if 7 < days_after then -5
    else 0
  | none => 0

/-- The accumulated score of `_calculate_relevance` before the final clamp,
with the additive steps in source order (in hundredths). -/
def rawScore (title channel home away : String)
    (published_at match_date : Option String) : Int :=
  let title_lower := charsLower title
  50
  + (if containsSub (charsLower home) title_lower
        && containsSub (charsLower away) title_lower then 20 else 0)
  + channelTierAdj channel
  + (if containsSub "extended".data title_lower then 10 else 0)
  + (if containsSub "full highlights".data title_lower then 10 else 0)
  + (if containsSub "official".data title_lower
        && (containsSub (charsLower home) title_lower
            || containsSub (charsLower away) title_lower) then -5 else 0)
  + (if isNonEnglishChannel channel then -30 else 0)
  + (if hasNonEnglishTitleTerm title then -20 else 0)
  + freshnessAdj published_at match_date

/-- Model of `_calculate_relevance` (in hundredths of the source's score):
the accumulated score clamped to `[0, 0.65]` for unrecognized channels and
to `[0, 1]` otherwise. -/
def _calculate_relevance (title channel home away : String)
    (published_at : Option String := none) (match_date : Option String := none) : Int :=
  if !(isBroadcaster channel) && !(isClubChannel channel) then
    max 0 (min (rawScore title channel home away published_at match_date) 65)
  else
    max 0 (min (rawScore title channel home away published_at match_date) 100)

/-- Model of `_get_geo_blocking`: first geo pattern contained
(case-sensitively) in the channel name wins; unknown channels get `[]`. -/
def _get_geo_blocking (channel : String) : List String :=
  match geo_patterns.find? (fun p => containsSub p.1.data channel.data) with
  | some p => p.2
  | none => []

/-- Model of `_extract_video_metadata`: gate the title through
`_is_relevant_video`, then build the scored record (a malformed upstream
item raising `KeyError` is outside this typed model). -/
def _extract_video_metadata (item : SearchItem) (home away date : String) :
    Option Video :=
  if !(_is_relevant_video item.title home away) then none
  else
    some {
      videoId := item.videoId
      title := item.title
      channel := item.channelTitle
      channelId := item.channelId
      publishedAt := item.publishedAt
      thumbnail := item.thumbnail
      description := item.description.take 200
      isOfficial := some (isBroadcaster item.channelTitle || isClubChannel item.channelTitle)
      geoBlocked := _get_geo_blocking item.channelTitle
      relevanceScore := _calculate_relevance item.title item.channelTitle home away
        (some item.publishedAt) (some date)
    }

/-! ## collect_videos.py : merging and ranking -/

/-- Stable insertion preserving descending score order: the inserted
element goes before the first element whose score does not exceed it, so an
earlier element keeps priority among equal scores. -/
def insertByScore (v : Video) : List Video → List Video
  | [] => [v]
  | w :: ws =>
    if w.relevanceScore ≤ v.relevanceScore then v :: w :: ws
    else w :: insertByScore v ws

/-- Stable descending sort by `relevanceScore`, modelling Python's stable
`list.sort(key=..., reverse=True)` / `sorted(..., reverse=True)`. -/
def sortByScoreDesc : List Video → List Video
  | [] => []
  | v :: vs => insertByScore v (sortByScoreDesc vs)

/-- Model of `_rank_videos`. -/
def _rank_videos (videos : List Video) : List Video :=
  sortByScoreDesc videos

/-- The `'Sky Sports' in v.get('channel', '')` test of `process_season`. -/
def skyChannelB (v : Video) : Bool :=
  containsSub "Sky Sports".data v.channel.data

/-- The deduplicated merge list of `process_season`: trusted Sky videos
first, then search videos whose id is not among the trusted ids. -/
def mergedCandidates (fixtureVideos searchVideos : List Video) : List Video :=
  let sky_videos := fixtureVideos.filter skyChannelB
  let sky_ids := sky_videos.map Video.videoId
  sky_videos ++ searchVideos.filter (fun v => !(decide (v.videoId ∈ sky_ids)))

/-- Model of the merge step of `process_season` (lines 482–490): when the
fixture carries Sky Sports videos, prepend them, drop search duplicates,
sort by score descending (stable) and truncate to 5; otherwise keep the
search results unchanged. -/
def mergeFixtureVideos (fixtureVideos searchVideos : List Video) : List Video :=
  let sky_videos := fixtureVideos.filter skyChannelB
  if sky_videos.isEmpty then searchVideos
  else (sortByScoreDesc (mergedCandidates fixtureVideos searchVideos)).take 5

/-! ## enrich_sky.py : alias table and team extraction -/

/-- ASCII apostrophe (used inside one alias string). -/
def apos : Char := Char.ofNat 39

/-- `TEAM_ALIASES`, in dict insertion order: lowercase title fragment →
canonical fixture team name. -/
def TEAM_ALIASES : List (String × String) :=
  [("arsenal", "Arsenal"),
   ("aston villa", "Aston Villa"),
   ("villa", "Aston Villa"),
   ("bournemouth", "Bournemouth"),
   ("afc bournemouth", "Bournemouth"),
   ("brentford", "Brentford"),
   ("brighton & hove albion", "Brighton"),
   ("brighton and hove albion", "Brighton"),
   ("brighton", "Brighton"),
   ("chelsea", "Chelsea"),
   ("crystal palace", "Crystal Palace"),
   ("palace", "Crystal Palace"),
   ("everton", "Everton"),
   ("fulham", "Fulham"),
   ("ipswich town", "Ipswich"),
   ("ipswich", "Ipswich"),
   ("leicester city", "Leicester"),
   ("leicester", "Leicester"),
   ("liverpool", "Liverpool"),
   ("manchester city", "Manchester City"),
   ("man city", "Manchester City"),
   ("manchester united", "Manchester United"),
   ("man united", "Manchester United"),
   ("man utd", "Manchester United"),
   ("newcastle united", "Newcastle United"),
   ("newcastle", "Newcastle United"),
   ("nottingham forest", "Nottingham Forest"),
   ("nott" ++ apos.toString ++ "m forest", "Nottingham Forest"),
   ("nottm forest", "Nottingham Forest"),
   ("n.forest", "Nottingham Forest"),
   ("n forest", "Nottingham Forest"),
   ("forest", "Nottingham Forest"),
   ("southampton", "Southampton"),
   ("saints", "Southampton"),
   ("tottenham hotspur", "Tottenham"),
   ("tottenham", "Tottenham"),
   ("spurs", "Tottenham"),
   ("west ham united", "West Ham"),
   ("west ham", "West Ham"),
   ("wolverhampton wanderers", "Wolves"),
   ("wolverhampton", "Wolves"),
   ("wolves", "Wolves")]

/-- Dict access `TEAM_ALIASES[alias]` (total on the table's keys). -/
def aliasCanonical (al : String) : String :=
  ((TEAM_ALIASES.find? (fun e => e.1 == al)).map Prod.snd).getD ""

/-- Stable insertion for the descending-length sort of the alias keys. -/
def insertByLen (a : String) : List String → List String
  | [] => [a]
  | b :: bs => if b.length ≤ a.length then a :: b :: bs else b :: insertByLen a bs

/-- Stable descending sort by string length, modelling Python's stable
`sorted(keys, key=len, reverse=True)`. -/
def sortByLenDesc : List String → List String
  | [] => []
  | a :: as => insertByLen a (sortByLenDesc as)

/-- `_SORTED_ALIASES`: the alias keys, longest first, ties in table order. -/
def _SORTED_ALIASES : List String :=
  sortByLenDesc (TEAM_ALIASES.map Prod.fst)

/-- The alias-scanning loop of `extract_teams_from_title`, including its
early break once two canonical names are collected. -/
def scanAliases (title_lower : List Char) : List String → List String → List String
  | [], found => found
  | al :: rest, found =>
    let canonical := aliasCanonical al
    let found1 :=
      if !(decide (canonical ∈ found)) && containsSub al.data title_lower then
        found ++ [canonical]
      else found
    if found1.length = 2 then found1 else scanAliases title_lower rest found1

/-- The same scan without the early break, collecting every distinct
canonical name whose alias occurs in the title (used to characterize the
break-based loop). -/
def scanAliasesAll (title_lower : List Char) : List String → List String → List String
  | [], found => found
  | al :: rest, found =>
    let canonical := aliasCanonical al
    let found1 :=
      if !(decide (canonical ∈ found)) && containsSub al.data title_lower then
        found ++ [canonical]
      else found
    scanAliasesAll title_lower rest found1

/-- Model of `extract_teams_from_title`: scan the length-sorted aliases over
the lowercased title; answer the first two distinct canonical names found,
or `(none, none)` when fewer than two turn up. -/
def extract_teams_from_title (title : String) : Option String × Option String :=
  match scanAliases (charsLower title) _SORTED_ALIASES [] with
  | a :: b :: _ => (some a, some b)
  | _ => (none, none)

/-! ## enrich_sky.py : fixture index and lookup -/

/-- The index type: `frozenset({home, away})` keys (as `Finset String`) in
dict insertion order, each with its list of `(parsed date, fixture)`. -/
abbrev FixtureIndex := List (Finset String × List (Option Nat × Fixture))

/-- The unordered participant-pair key `frozenset([team1, team2])`. -/
def pairKey (team1 team2 : String) : Finset String := {team1, team2}

/-- Dict access `index.get(key)`. -/
def indexLookup (index : FixtureIndex) (key : Finset String) :
    Option (List (Option Nat × Fixture)) :=
  (index.find? (fun e => decide (e.1 = key))).map Prod.snd

/-- Append one `(date, fixture)` entry under `key`, creating the key at the
end on first use (dict insertion order). -/
def addFixtureEntry : FixtureIndex → Finset String → Option Nat × Fixture → FixtureIndex
  | [], key, entry => [(key, [entry])]
  | (k, l) :: rest, key, entry =>
    if k = key then (k, l ++ [entry]) :: rest
    else (k, l) :: addFixtureEntry rest key entry

/-- Model of `build_fixture_index`. -/
def build_fixture_index (gameweeks : List Gameweek) : FixtureIndex :=
  gameweeks.foldl (fun index gw =>
    gw.fixtures.foldl (fun index fixture =>
      addFixtureEntry index (pairKey fixture.home fixture.away)
        (parse_date fixture.date, fixture)) index) []

/-- The candidate scan of `find_fixture`: an unparsable reference or
candidate date returns that candidate at once; otherwise the first candidate
within the day window wins; otherwise `None`. -/
def findScan (video_date : Option Nat) :
    List (Option Nat × Fixture) → Int → Option Fixture
  | [], _ => none
  | (fixture_date, fixture) :: rest, window_days =>
    match video_date, fixture_date with
    | some v, some f =>
      if |((v : Int) - (f : Int))| ≤ window_days then some fixture
      else findScan video_date rest window_days
    | _, _ => some fixture

/-- Model of `find_fixture` (`window_days` defaults to 3 in the source). -/
def find_fixture (index : FixtureIndex) (team1 team2 : String)
    (published_at : String) (window_days : Int := 3) : Option Fixture :=
  match indexLookup index (pairKey team1 team2) with
  | none => none
  | some candidates => findScan (parse_date published_at) candidates window_days

/-! ## enrich_sky.py : playlist pass -/

/-- Model of the record construction inside `fetch_playlist_videos`:
deleted/private titles and absent or empty video ids are skipped; every
surviving item becomes a record with fixed channel, type, relevance score
(0.95, i.e. 95 hundredths) and geo-block list — no gate, no scoring. -/
def fetch_playlist_videos (items : List PlaylistItem) : List Video :=
  items.filterMap (fun item =>
    if item.title = "Deleted video" || item.title = "Private video" then none
    else
      match item.resourceVideoId with
      | none => none
      | some vid =>
        if vid = "" then none
        else
          some {
            videoId := vid
            title := item.title
            channel := "Sky Sports"
            channelId := item.channelId
            publishedAt := item.publishedAt
            thumbnail := item.thumbnail
            description := item.description.take 200
            vtype := some "official"
            relevanceScore := 95
            geoBlocked := ["US", "CA"]
          })

/-! ## Derived predicates and concrete instances used by the statements -/

/-- Descending order by relevance score (the post-merge sort invariant). -/
abbrev SortedByScoreDesc (l : List Video) : Prop :=
  List.Pairwise (fun a b => b.relevanceScore ≤ a.relevanceScore) l

/-- The find-first predicate equivalent to the `find_fixture` scan: an
unparsable reference or candidate date accepts at once, otherwise the day
window decides. -/
def fixtureHit (video_date : Option Nat) (window_days : Int)
    (c : Option Nat × Fixture) : Bool :=
  match video_date, c.1 with
  | some r, some f => decide (|((r : Int) - (f : Int))| ≤ window_days)
  | _, _ => true

/-- The two same-pair fixtures of the spec's date-disambiguation example. -/
def exFixtureAug : Fixture := { home := "Arsenal", away := "Chelsea", date := "2024-08-10" }

def exFixtureJan : Fixture := { home := "Arsenal", away := "Chelsea", date := "2025-01-15" }

def exGameweeks : List Gameweek := [{ fixtures := [exFixtureAug, exFixtureJan] }]

/-- A minimal video record for concrete instances. -/
def exVideo (i c : String) (s : Int) : Video :=
  { videoId := i, title := "t", channel := c, channelId := "", publishedAt := "",
    thumbnail := "", description := "", relevanceScore := s, geoBlocked := [] }

/-- A trusted enrichment-pass video (channel `Sky Sports`, score 0.95). -/
def exSkyVideo (i : String) : Video := exVideo i "Sky Sports" 95

/-- Six trusted videos on one fixture — more than the result cap holds. -/
def exSixSky : List Video :=
  [exSkyVideo "a", exSkyVideo "b", exSkyVideo "c", exSkyVideo "d",
   exSkyVideo "e", exSkyVideo "f"]

/-- Two search videos in ascending score order (not sorted descending). -/
def exSearchLow : Video := exVideo "x" "SomeUploader" 10

def exSearchHigh : Video := exVideo "y" "OtherUploader" 90

/-- A playlist item whose title would fail the search relevance gate. -/
def exPlaylistItem : PlaylistItem :=
  { title := "Arsenal 3-1 Chelsea FIFA 24 career mode prediction",
    resourceVideoId := some "vid1", channelId := "chan",
    publishedAt := "2024-08-12T10:00:00Z", thumbnail := "th", description := "d" }

/-- The record the playlist pass builds from `exPlaylistItem`. -/
def exPlaylistVideo : Video :=
  { videoId := "vid1", title := "Arsenal 3-1 Chelsea FIFA 24 career mode prediction",
    channel := "Sky Sports", channelId := "chan",
    publishedAt := "2024-08-12T10:00:00Z", thumbnail := "th", description := "d",
    vtype := some "official", relevanceScore := 95, geoBlocked := ["US", "CA"] }

/-- The channel-independent part of the raw score: base, team-presence,
title-keyword, self-promotion, non-English-title and freshness terms. -/
def titleFreshScore (title home away : String)
    (published_at match_date : Option String) : Int :=
  50
  + (if containsSub (charsLower home) (charsLower title)
        && containsSub (charsLower away) (charsLower title) then 20 else 0)
  + (if containsSub "extended".data (charsLower title) then 10 else 0)
  + (if containsSub "full highlights".data (charsLower title) then 10 else 0)
  + (if containsSub "official".data (charsLower title)
        && (containsSub (charsLower home) (charsLower title)
            || containsSub (charsLower away) (charsLower title)) then -5 else 0)
  + (if hasNonEnglishTitleTerm title then -20 else 0)
  + freshnessAdj published_at match_date

/-! ## Scorer lemmas -/

/-- The freshness adjustment only ever takes the three source values. -/
theorem freshnessAdj_cases (p m : Option String) :
    freshnessAdj p m = 10 ∨ freshnessAdj p m = -5 ∨ freshnessAdj p m = 0 := by
  unfold freshnessAdj
  cases daysAfterOpt p m with
  | none => simp
  | some d =>
    dsimp only
    split_ifs <;> simp

/-- The raw score splits into a channel-independent part, the channel tier
adjustment and the non-English-channel penalty. -/
theorem rawScore_decomp (title channel home away : String)
    (p m : Option String) :
    rawScore title channel home away p m
      = titleFreshScore title home away p m
        + channelTierAdj channel
        + (if isNonEnglishChannel channel then -30 else 0) := by
  unfold rawScore titleFreshScore
  ring

/-- Lower bound on the channel-independent part: the worst case is the base
0.5 minus the self-promotion, non-English-title and late-upload penalties. -/
theorem titleFreshScore_lb (title home away : String) (p m : Option String) :
    20 ≤ titleFreshScore title home away p m := by
  unfold titleFreshScore
  rcases freshnessAdj_cases p m with hf | hf | hf <;> rw [hf] <;> split_ifs <;> omega

/-- C1: for every title, channel, team pair and optional publish-timestamp
and match-date strings, `_calculate_relevance` returns a value in [0.0, 1.0]
(0–100 hundredths); and when the lowercased channel contains no broadcaster
whitelist fragment and no club-channel whitelist fragment, the returned
value is at most 0.65 (65 hundredths). -/
theorem C1_relevance_score_bounds (title channel home away : String)
    (published_at match_date : Option String) :
    (0 ≤ _calculate_relevance title channel home away published_at match_date
      ∧ _calculate_relevance title channel home away published_at match_date ≤ 100)
    ∧ (isBroadcaster channel = false → isClubChannel channel = false →
        _calculate_relevance title channel home away published_at match_date ≤ 65) := by
  constructor
  · unfold _calculate_relevance
    split
    · refine ⟨le_max_left 0 _, max_le (by omega) ?_⟩
      exact le_trans (min_le_right _ _) (by omega)
    · exact ⟨le_max_left 0 _, max_le (by omega) (min_le_right _ _)⟩
  · intro hb hc
    unfold _calculate_relevance
    rw [hb, hc]
    simp only [Bool.not_false, Bool.and_self, if_true]
    exact max_le (by omega) (min_le_right _ _)

/-- C1 witness: a concrete unrecognized channel is capped at 0.65. -/
theorem C1_relevance_score_bounds_witness :
    _calculate_relevance "Arsenal vs Chelsea highlights" "RandomReuploads123"
      "Arsenal" "Chelsea" none none ≤ 65 :=
  (C1_relevance_score_bounds "Arsenal vs Chelsea highlights" "RandomReuploads123"
    "Arsenal" "Chelsea" none none).2 (by decide) (by decide)

/-- Clamp arithmetic behind broadcaster precedence: with the channel-free
part at least 0.2, the unrecognized clamp stays strictly below the
broadcaster clamp of the same part plus 0.3. -/
theorem clamp_unrecognized_lt_broadcaster (T : Int) (h : 20 ≤ T) :
    max 0 (min T 65) < max 0 (min (T + 30) 100) := by
  have e1 : max 0 (min T 65) = min T 65 :=
    max_eq_right (le_min (by omega) (by omega))
  have e2 : max 0 (min (T + 30) 100) = min (T + 30) 100 :=
    max_eq_right (le_min (by omega) (by omega))
  rw [e1, e2]
  refine lt_min_iff.mpr ⟨?_, ?_⟩
  · exact lt_of_le_of_lt (min_le_left T 65) (by omega)
  · exact lt_of_le_of_lt (min_le_right T 65) (by omega)

/-- C8: for any two candidates identical in title, participants, publish
timestamp and match date, the score of the `Sky Sports Football` channel
candidate strictly exceeds the score of the `RandomReuploads123` one. -/
theorem C8_broadcaster_precedence (title home away : String)
    (published_at match_date : Option String) :
    _calculate_relevance title "RandomReuploads123" home away published_at match_date
      < _calculate_relevance title "Sky Sports Football" home away published_at match_date := by
  have hsB : isBroadcaster "Sky Sports Football" = true := by decide
  have hsC : isClubChannel "Sky Sports Football" = false := by decide
  have hrB : isBroadcaster "RandomReuploads123" = false := by decide
  have hrC : isClubChannel "RandomReuploads123" = false := by decide
  have hsT : channelTierAdj "Sky Sports Football" = 30 := by decide
  have hrT : channelTierAdj "RandomReuploads123" = 0 := by decide
  have hsN : isNonEnglishChannel "Sky Sports Football" = false := by decide
  have hrN : isNonEnglishChannel "RandomReuploads123" = false := by decide
  have hT := titleFreshScore_lb title home away published_at match_date
  unfold _calculate_relevance
  rw [rawScore_decomp, rawScore_decomp, hsT, hrT]
  simp only [hsB, hsC, hrB, hrC, hsN, hrN, Bool.not_true, Bool.not_false,
    Bool.and_self, Bool.false_and, Bool.false_eq_true, if_false, if_true, add_zero]
  exact clamp_unrecognized_lt_broadcaster _ hT

/-- C9: when the freshness inputs both parse, the step adds +0.1 for a
publish date 0–3 days after the match and −0.05 beyond 7 days (and nothing
otherwise); when either fails to parse, the step is skipped silently and
the score equals the one computed from the remaining steps alone. -/
theorem C9_freshness_step (title channel home away : String)
    (published_at match_date : Option String) :
    (∀ d : Int, daysAfterOpt published_at match_date = some d →
      ((0 ≤ d ∧ d ≤ 3) → freshnessAdj published_at match_date = 10)
      ∧ (7 < d → freshnessAdj published_at match_date = -5)
      ∧ (¬(0 ≤ d ∧ d ≤ 3) → ¬(7 < d) → freshnessAdj published_at match_date = 0))
    ∧ (daysAfterOpt published_at match_date = none →
        freshnessAdj published_at match_date = 0
        ∧ _calculate_relevance title channel home away published_at match_date
            = _calculate_relevance title channel home away none none) := by
  constructor
  · intro d hd
    have he : freshnessAdj published_at match_date
        = if 0 ≤ d ∧ d ≤ 3 then 10 else if 7 < d then -5 else 0 := by
      unfold freshnessAdj
      rw [hd]
      simp only [Bool.and_eq_true, decide_eq_true_eq]
    refine ⟨fun h1 => ?_, fun h2 => ?_, fun h1 h2 => ?_⟩
    · rw [he, if_pos h1]
    · rw [he, if_neg (by omega), if_pos h2]
    · rw [he, if_neg h1, if_neg h2]
  · intro hd
    have hf : freshnessAdj published_at match_date = 0 := by
      unfold freshnessAdj; rw [hd]
    have hf0 : freshnessAdj (none : Option String) (none : Option String) = 0 := rfl
    refine ⟨hf, ?_⟩
    unfold _calculate_relevance rawScore
    rw [hf, hf0]

/-- C9 witness: a timestamp two days after the match earns the bonus; a
garbage timestamp contributes nothing. -/
theorem C9_freshness_step_witness :
    freshnessAdj (some "2024-08-12T10:00:00Z") (some "2024-08-10") = 10
    ∧ freshnessAdj (some "garbage") (some "2024-08-10") = 0 :=
  ⟨((C9_freshness_step "t" "c" "h" "a"
      (some "2024-08-12T10:00:00Z") (some "2024-08-10")).1 2 (by decide)).1 (by decide),
   ((C9_freshness_step "t" "c" "h" "a"
      (some "garbage") (some "2024-08-10")).2 (by decide)).1⟩

/-! ## Relevance gate (C5) -/

/-- C5: a candidate is scored and returned as metadata exactly when it
passes the gate, and the gate passes exactly when the lowercased title
contains a participant name, none of the excluded terms and at least one
highlight term; the FIFA career-mode title is rejected. -/
theorem C5_relevance_gate :
    (∀ (item : SearchItem) (home away date : String),
      (_extract_video_metadata item home away date).isSome = true
        ↔ _is_relevant_video item.title home away = true)
    ∧ (∀ title home away : String,
        _is_relevant_video title home away = true
          ↔ ((containsSub (charsLower home) (charsLower title) = true
               ∨ containsSub (charsLower away) (charsLower title) = true)
             ∧ ¬(∃ t ∈ excluded_terms, containsSub t.data (charsLower title) = true)
             ∧ (∃ t ∈ highlight_terms, containsSub t.data (charsLower title) = true)))
    ∧ _is_relevant_video "Arsenal 3-1 Chelsea FIFA 24 career mode prediction"
        "Arsenal" "Chelsea" = false := by
  refine ⟨?_, ?_, by decide⟩
  · intro item home away date
    unfold _extract_video_metadata
    by_cases h : _is_relevant_video item.title home away = true
    · simp [h]
    · simp only [Bool.not_eq_true] at h
      simp [h]
  · intro title home away
    unfold _is_relevant_video
    simp [List.any_eq_true, Bool.and_eq_true, Bool.or_eq_true, Bool.not_eq_true']
    tauto

/-- C5 witness: the gate equivalence applied at a concrete search item. -/
theorem C5_relevance_gate_witness :
    (_extract_video_metadata
        { videoId := "v", title := "Arsenal vs Chelsea highlights",
          channelTitle := "SomeUploader", channelId := "c",
          publishedAt := "2024-08-12T10:00:00Z", thumbnail := "th",
          description := "d" } "Arsenal" "Chelsea" "2024-08-10").isSome = true :=
  (C5_relevance_gate.1
    { videoId := "v", title := "Arsenal vs Chelsea highlights",
      channelTitle := "SomeUploader", channelId := "c",
      publishedAt := "2024-08-12T10:00:00Z", thumbnail := "th",
      description := "d" } "Arsenal" "Chelsea" "2024-08-10").mpr (by decide)

/-! ## Playlist pass (C10) -/

/-- C10: every record built by the trusted-playlist pass bypasses the
relevance gate and scorer — it carries the constants relevanceScore 0.95
(95 hundredths), channel `Sky Sports`, type `official` and
geoBlocked `[US, CA]`, regardless of its title. -/
theorem C10_playlist_constants (items : List PlaylistItem) (v : Video)
    (hv : v ∈ fetch_playlist_videos items) :
    v.relevanceScore = 95 ∧ v.channel = "Sky Sports"
      ∧ v.vtype = some "official" ∧ v.geoBlocked = ["US", "CA"] := by
  unfold fetch_playlist_videos at hv
  rw [List.mem_filterMap] at hv
  obtain ⟨item, -, h⟩ := hv
  split at h
  · exact absurd h (by simp)
  · split at h
    · exact absurd h (by simp)
    · split at h
      · exact absurd h (by simp)
      · injection h with h
        subst h
        exact ⟨rfl, rfl, rfl, rfl⟩

set_option maxRecDepth 8192 in
/-- C10 witness: an item whose title fails the search gate still becomes a
record with the fixed constants. -/
theorem C10_playlist_constants_witness :
    _is_relevant_video exPlaylistItem.title "Arsenal" "Chelsea" = false
    ∧ (exPlaylistVideo.relevanceScore = 95 ∧ exPlaylistVideo.channel = "Sky Sports"
        ∧ exPlaylistVideo.vtype = some "official"
        ∧ exPlaylistVideo.geoBlocked = ["US", "CA"]) :=
  ⟨by decide, C10_playlist_constants [exPlaylistItem] exPlaylistVideo (by decide)⟩

/-! ## Fixture lookup (C2, C3) -/

/-- The early-return candidate scan is the first hit of the `fixtureHit`
predicate: an unparsable reference or candidate date accepts immediately,
otherwise the first candidate within the window is taken. -/
theorem findScan_eq_find (video_date : Option Nat)
    (candidates : List (Option Nat × Fixture)) (window_days : Int) :
    findScan video_date candidates window_days
      = (candidates.find? (fixtureHit video_date window_days)).map Prod.snd := by
  induction candidates with
  | nil => rfl
  | cons c rest ih =>
    obtain ⟨fd, fx⟩ := c
    unfold findScan
    cases video_date with
    | none => simp [List.find?_cons, fixtureHit]
    | some r =>
      cases fd with
      | none => simp [List.find?_cons, fixtureHit]
      | some f =>
        by_cases habs : |((r : Int) - (f : Int))| ≤ window_days
        · simp [List.find?_cons, fixtureHit, habs]
        · simp [List.find?_cons, fixtureHit, habs, ih]

/-- C2: lookup on a missing pair key is not-found; otherwise the scan
returns the first candidate that is unparsable (reference or candidate
date) or within the tolerance window, and not-found when none qualifies;
on the two same-pair example fixtures (2024-08-10 and 2025-01-15, window
3 days) reference date 2024-08-11 resolves to the August fixture and
2025-01-14 to the January one. -/
theorem C2_find_fixture_behavior :
    (∀ (index : FixtureIndex) (teamA teamB published_at : String) (w : Int),
      indexLookup index (pairKey teamA teamB) = none →
      find_fixture index teamA teamB published_at w = none)
    ∧ (∀ (index : FixtureIndex) (teamA teamB published_at : String) (w : Int)
        (candidates : List (Option Nat × Fixture)),
      indexLookup index (pairKey teamA teamB) = some candidates →
      find_fixture index teamA teamB published_at w
        = (candidates.find? (fixtureHit (parse_date published_at) w)).map Prod.snd)
    ∧ find_fixture (build_fixture_index exGameweeks) "Arsenal" "Chelsea"
        "2024-08-11" 3 = some exFixtureAug
    ∧ find_fixture (build_fixture_index exGameweeks) "Arsenal" "Chelsea"
        "2025-01-14" 3 = some exFixtureJan := by
  refine ⟨?_, ?_, by decide, by decide⟩
  · intro index teamA teamB published_at w h
    unfold find_fixture
    rw [h]
  · intro index teamA teamB published_at w candidates h
    unfold find_fixture
    rw [h]
    exact findScan_eq_find _ _ _

/-- C2 witness: the not-found case on an empty index, and the scan
characterization evaluated on the example index. -/
theorem C2_find_fixture_behavior_witness :
    find_fixture [] "Arsenal" "Chelsea" "2024-08-11" 3 = none
    ∧ find_fixture (build_fixture_index exGameweeks) "Arsenal" "Chelsea"
        "not-a-date" 3 = some exFixtureAug :=
  ⟨C2_find_fixture_behavior.1 [] "Arsenal" "Chelsea" "2024-08-11" 3 rfl,
   by
    rw [C2_find_fixture_behavior.2.1 (build_fixture_index exGameweeks)
      "Arsenal" "Chelsea" "not-a-date" 3
      [(some (toDayNumber 2024 8 10), exFixtureAug),
       (some (toDayNumber 2025 1 15), exFixtureJan)] (by decide)]
    decide⟩

/-- C3: the fixture lookup is symmetric in the two team names, because the
index key is the unordered pair. -/
theorem C3_lookup_symmetric (gameweeks : List Gameweek)
    (teamA teamB published_at : String) (w : Int) :
    find_fixture (build_fixture_index gameweeks) teamA teamB published_at w
      = find_fixture (build_fixture_index gameweeks) teamB teamA published_at w := by
  unfold find_fixture
  rw [show pairKey teamA teamB = pairKey teamB teamA from Finset.pair_comm teamA teamB]

/-! ## Team extraction (C4) -/

/-- The accumulator is a prefix of the result of the break-free scan. -/
theorem scanAliasesAll_extends (tl : List Char) (l : List String) (found : List String) :
    found <+: scanAliasesAll tl l found := by
  induction l generalizing found with
  | nil => exact List.prefix_refl _
  | cons a rest ih =>
    unfold scanAliasesAll
    dsimp only
    split
    · exact List.IsPrefix.trans (List.prefix_append found _) (ih _)
    · exact ih found

/-- The break at two found names is equivalent to scanning everything and
keeping the first two. -/
theorem scanAliases_eq_take (tl : List Char) (l : List String) (found : List String)
    (hlen : found.length < 2) :
    scanAliases tl l found = (scanAliasesAll tl l found).take 2 := by
  induction l generalizing found with
  | nil =>
    unfold scanAliases scanAliasesAll
    exact (List.take_of_length_le (by omega)).symm
  | cons a rest ih =>
    unfold scanAliases scanAliasesAll
    dsimp only
    have hstep : ∀ found1 : List String, found1.length ≤ 2 →
        (if found1.length = 2 then found1 else scanAliases tl rest found1)
          = (scanAliasesAll tl rest found1).take 2 := by
      intro found1 h1
      by_cases h2 : found1.length = 2
      · rw [if_pos h2]
        have hpre := List.prefix_iff_eq_take.mp (scanAliasesAll_extends tl rest found1)
        rw [h2] at hpre
        exact hpre
      · rw [if_neg h2]
        exact ih found1 (by omega)
    apply hstep
    split
    · rw [List.length_append]
      simp only [List.length_singleton]
      omega
    · omega

/-- The break-free scan never records a canonical name twice. -/
theorem scanAliasesAll_nodup (tl : List Char) (l : List String) (found : List String)
    (h : found.Nodup) : (scanAliasesAll tl l found).Nodup := by
  induction l generalizing found with
  | nil => exact h
  | cons a rest ih =>
    unfold scanAliasesAll
    dsimp only
    apply ih
    split
    · next hc =>
      simp only [Bool.and_eq_true, Bool.not_eq_true', decide_eq_false_iff_not] at hc
      simp [List.nodup_append, h, hc.1]
    · exact h

/-- C4 (amended): team extraction scans the alias table longest-alias-first
(ties in table order), collects distinct canonical names whose alias occurs
in the lowercased title, and returns the first two collected as a pair —
ordered by that scan, not by position in the text; when fewer than two are
found it returns `(none, none)` rather than a partial sequence. -/
theorem C4_team_extraction (title : String) :
    extract_teams_from_title title
      = (match (scanAliasesAll (charsLower title) _SORTED_ALIASES []).take 2 with
         | [a, b] => (some a, some b)
         | _ => ((none : Option String), (none : Option String)))
    ∧ (scanAliasesAll (charsLower title) _SORTED_ALIASES []).Nodup := by
  refine ⟨?_, scanAliasesAll_nodup _ _ _ List.nodup_nil⟩
  unfold extract_teams_from_title
  rw [scanAliases_eq_take _ _ _ (by simp)]
  have hlen := List.length_take_le 2 (scanAliasesAll (charsLower title) _SORTED_ALIASES [])
  rcases hX : (scanAliasesAll (charsLower title) _SORTED_ALIASES []).take 2
    with _ | ⟨a, _ | ⟨b, rest⟩⟩
  · rfl
  · rfl
  · rw [hX] at hlen
    cases rest with
    | nil => rfl
    | cons c more =>
      exfalso
      simp only [List.length_cons] at hlen
      omega

/-- C4 counterexample: the code orders the pair by alias scan, not by first
appearance in the text (`Spurs` appears first but `Manchester United` is
returned first), and a title with exactly one team yields `(none, none)`,
not a one-element partial sequence. -/
theorem C4_team_extraction_cex :
    extract_teams_from_title "Spurs vs Manchester United"
        = (some "Manchester United", some "Tottenham")
    ∧ extract_teams_from_title "Spurs vs Manchester United"
        ≠ (some "Tottenham", some "Manchester United")
    ∧ extract_teams_from_title "Arsenal highlights" = ((none : Option String), none) :=
  ⟨by decide, by decide, by decide⟩

/-! ## Merge and ranking lemmas (C6, C7) -/

/-- Insertion produces a permutation. -/
theorem insertByScore_perm (v : Video) (l : List Video) :
    (insertByScore v l).Perm (v :: l) := by
  induction l with
  | nil => exact List.Perm.refl _
  | cons w ws ih =>
    unfold insertByScore
    split
    · exact List.Perm.refl _
    · exact (ih.cons w).trans (List.Perm.swap v w ws)

/-- The sort produces a permutation of its input. -/
theorem sortByScoreDesc_perm (l : List Video) : (sortByScoreDesc l).Perm l := by
  induction l with
  | nil => exact List.Perm.refl _
  | cons v vs ih => exact (insertByScore_perm v _).trans (ih.cons v)

/-- Insertion preserves descending score order. -/
theorem insertByScore_sorted (v : Video) {l : List Video}
    (h : SortedByScoreDesc l) : SortedByScoreDesc (insertByScore v l) := by
  induction l with
  | nil => simp [insertByScore]
  | cons w ws ih =>
    rcases List.pairwise_cons.mp h with ⟨hw, hws⟩
    unfold insertByScore
    by_cases hle : w.relevanceScore ≤ v.relevanceScore
    · rw [if_pos hle]
      refine List.pairwise_cons.mpr ⟨?_, h⟩
      intro x hx
      rcases List.mem_cons.mp hx with rfl | hx
      · exact hle
      · exact le_trans (hw x hx) hle
    · rw [if_neg hle]
      refine List.pairwise_cons.mpr ⟨?_, ih hws⟩
      intro x hx
      rcases List.mem_cons.mp ((insertByScore_perm v ws).mem_iff.mp hx) with rfl | hx
      · omega
      · exact hw x hx

/-- The sort's output is in descending score order. -/
theorem sortByScoreDesc_sorted (l : List Video) :
    SortedByScoreDesc (sortByScoreDesc l) := by
  induction l with
  | nil => simp [sortByScoreDesc]
  | cons v vs ih => exact insertByScore_sorted v ih

/-- Insertion is stable: restricted to any single score value, the order of
the input is preserved (the new element lands before every equal-scored
one, matching its position at the head of the unsorted remainder). -/
theorem filter_insertByScore (v : Video) (l : List Video) (q : Int) :
    (insertByScore v l).filter (fun w => decide (w.relevanceScore = q))
      = if v.relevanceScore = q
        then v :: l.filter (fun w => decide (w.relevanceScore = q))
        else l.filter (fun w => decide (w.relevanceScore = q)) := by
  induction l with
  | nil =>
    by_cases hv : v.relevanceScore = q <;> simp [insertByScore, hv]
  | cons w ws ih =>
    unfold insertByScore
    by_cases hle : w.relevanceScore ≤ v.relevanceScore
    · rw [if_pos hle]
      by_cases hv : v.relevanceScore = q <;> simp [List.filter_cons, hv]
    · rw [if_neg hle]
      by_cases hv : v.relevanceScore = q
      · have hw : ¬(w.relevanceScore = q) := by omega
        simp [List.filter_cons, hv, hw, ih]
      · simp [List.filter_cons, hv, ih]

/-- The sort is stable: it does not reorder elements of equal score. -/
theorem filter_sortByScoreDesc (l : List Video) (q : Int) :
    (sortByScoreDesc l).filter (fun w => decide (w.relevanceScore = q))
      = l.filter (fun w => decide (w.relevanceScore = q)) := by
  induction l with
  | nil => rfl
  | cons v vs ih =>
    show (insertByScore v (sortByScoreDesc vs)).filter _ = _
    rw [filter_insertByScore]
    by_cases hv : v.relevanceScore = q <;> simp [List.filter_cons, hv, ih]

/-- In a score-sorted list, everything kept by `take` scores at least as
high as everything discarded by `drop`. -/
theorem sorted_take_ge_drop {l : List Video} (n : Nat) (h : SortedByScoreDesc l) :
    ∀ v ∈ l.take n, ∀ w ∈ l.drop n, w.relevanceScore ≤ v.relevanceScore := by
  rw [← List.take_append_drop n l] at h
  exact (List.pairwise_append.mp h).2.2

/-- The merged candidate list has pairwise-distinct ids when both inputs
do: the trusted block is a filtered copy of the trusted list, and the
search block excludes every trusted id. -/
theorem mergedCandidates_nodup (trusted search : List Video)
    (h1 : (trusted.map Video.videoId).Nodup)
    (h2 : (search.map Video.videoId).Nodup) :
    ((mergedCandidates trusted search).map Video.videoId).Nodup := by
  unfold mergedCandidates
  dsimp only
  rw [List.map_append, List.nodup_append]
  refine ⟨?_, ?_, ?_⟩
  · exact List.Nodup.sublist (List.Sublist.map _ (List.filter_sublist trusted)) h1
  · exact List.Nodup.sublist (List.Sublist.map _ (List.filter_sublist search)) h2
  · intro a ha hb
    rcases List.mem_map.mp hb with ⟨w, hw, hwid⟩
    rcases List.mem_filter.mp hw with ⟨-, hcond⟩
    simp only [Bool.not_eq_true', decide_eq_false_iff_not] at hcond
    exact hcond (hwid ▸ ha)

/-- Restricted to the elements of a list with pairwise-distinct ids, an id
membership test against the trusted block is the trusted-channel test. -/
theorem filter_dedup_eq_filter_not (l : List Video)
    (h : (l.map Video.videoId).Nodup) :
    l.filter (fun v => !(decide (v.videoId ∈ (l.filter skyChannelB).map Video.videoId)))
      = l.filter (fun v => !(skyChannelB v)) := by
  apply List.filter_congr
  intro v hv
  have : decide (v.videoId ∈ (l.filter skyChannelB).map Video.videoId) = skyChannelB v := by
    by_cases hs : skyChannelB v = true
    · simp only [hs, decide_eq_true_eq]
      exact List.mem_map.mpr ⟨v, List.mem_filter.mpr ⟨hv, hs⟩, rfl⟩
    · simp only [Bool.not_eq_true] at hs
      rw [hs, decide_eq_false_iff_not]
      rintro hmem
      rcases List.mem_map.mp hmem with ⟨w, hw, hwid⟩
      rcases List.mem_filter.mp hw with ⟨hwl, hwc⟩
      have := List.inj_on_of_nodup_map h hwl hv hwid
      rw [this] at hwc
      rw [hwc] at hs
      cases hs
  rw [this]

/-- Counting filter and its complement. -/
theorem length_filter_add_not (p : Video → Bool) (l : List Video) :
    (l.filter p).length + (l.filter (fun a => !(p a))).length = l.length := by
  induction l with
  | nil => rfl
  | cons a as ih =>
    cases hpa : p a <;> simp [List.filter_cons, hpa] <;> omega

/-- With a trusted Sky video present, the merge is sort-then-cap. -/
theorem mergeFixtureVideos_eq_of_sky (trusted search : List Video)
    (h3 : trusted.filter skyChannelB ≠ []) :
    mergeFixtureVideos trusted search
      = (sortByScoreDesc (mergedCandidates trusted search)).take 5 := by
  unfold mergeFixtureVideos
  dsimp only
  rw [if_neg (by simpa using h3)]

/-- With no trusted Sky video, the merge leaves the search list unchanged. -/
theorem mergeFixtureVideos_eq_of_nosky (trusted search : List Video)
    (h3 : trusted.filter skyChannelB = []) :
    mergeFixtureVideos trusted search = search := by
  unfold mergeFixtureVideos
  dsimp only
  rw [h3]
  rfl

/-- Self-merge drops exactly the trusted block from the search copy, so the
candidate list is no longer than the input. -/
theorem mergedCandidates_self_length (l : List Video)
    (h : (l.map Video.videoId).Nodup) :
    (mergedCandidates l l).length = l.length := by
  unfold mergedCandidates
  dsimp only
  rw [List.length_append, filter_dedup_eq_filter_not l h, length_filter_add_not]

/-- C6 (amended): whenever the fixture carries at least one trusted video
with a `Sky Sports` channel, the merged list has pairwise-distinct ids, is
sorted by score descending, ties keep the pre-sort order (trusted first,
the sort being stable), its length is at most 5, and it is exactly the 5
highest-scoring candidates whenever at least 5 are supplied; with no such
trusted video the merge step returns the search list unchanged; merging a
distinct-id candidate list with itself yields no duplicate ids and no
greater length. -/
theorem C6_merge_invariants :
    (∀ trusted search : List Video,
      (trusted.map Video.videoId).Nodup →
      (search.map Video.videoId).Nodup →
      trusted.filter skyChannelB ≠ [] →
      ((mergeFixtureVideos trusted search).map Video.videoId).Nodup
      ∧ SortedByScoreDesc (mergeFixtureVideos trusted search)
      ∧ (mergeFixtureVideos trusted search).length ≤ 5
      ∧ (5 ≤ (mergedCandidates trusted search).length →
          (mergeFixtureVideos trusted search).length = 5)
      ∧ (∀ v ∈ mergeFixtureVideos trusted search,
          ∀ w ∈ (sortByScoreDesc (mergedCandidates trusted search)).drop 5,
            w.relevanceScore ≤ v.relevanceScore)
      ∧ (∀ q : Int,
          (sortByScoreDesc (mergedCandidates trusted search)).filter
              (fun w => decide (w.relevanceScore = q))
            = (mergedCandidates trusted search).filter
                (fun w => decide (w.relevanceScore = q))))
    ∧ (∀ trusted search : List Video,
        trusted.filter skyChannelB = [] →
        mergeFixtureVideos trusted search = search)
    ∧ (∀ l : List Video, (l.map Video.videoId).Nodup →
        ((mergeFixtureVideos l l).map Video.videoId).Nodup
        ∧ (mergeFixtureVideos l l).length ≤ l.length) := by
  have hnodup : ∀ trusted search : List Video,
      (trusted.map Video.videoId).Nodup →
      (search.map Video.videoId).Nodup →
      (((sortByScoreDesc (mergedCandidates trusted search)).take 5).map
        Video.videoId).Nodup := by
    intro trusted search h1 h2
    refine List.Nodup.sublist (List.Sublist.map _ (List.take_sublist _ _)) ?_
    refine (((sortByScoreDesc_perm _).map Video.videoId).nodup_iff).mpr ?_
    exact mergedCandidates_nodup trusted search h1 h2
  refine ⟨?_, mergeFixtureVideos_eq_of_nosky, ?_⟩
  · intro trusted search h1 h2 h3
    rw [mergeFixtureVideos_eq_of_sky trusted search h3]
    refine ⟨hnodup trusted search h1 h2, ?_, List.length_take_le _ _, ?_, ?_, ?_⟩
    · exact List.Pairwise.sublist (List.take_sublist _ _) (sortByScoreDesc_sorted _)
    · intro hge
      rw [List.length_take, (sortByScoreDesc_perm _).length_eq]
      omega
    · intro v hv w hw
      exact sorted_take_ge_drop 5 (sortByScoreDesc_sorted _) v hv w hw
    · intro q
      exact filter_sortByScoreDesc _ q
  · intro l hl
    by_cases h : l.filter skyChannelB = []
    · rw [mergeFixtureVideos_eq_of_nosky l l h]
      exact ⟨hl, le_refl _⟩
    · rw [mergeFixtureVideos_eq_of_sky l l h]
      refine ⟨hnodup l l hl hl, ?_⟩
      rw [List.length_take, (sortByScoreDesc_perm _).length_eq,
        mergedCandidates_self_length l hl]
      omega

/-- C6 counterexample: with no trusted Sky video the merge step returns the
search list as-is, so an unsorted search pair stays unsorted — the claim's
unconditional sortedness fails. -/
theorem C6_merge_invariants_cex :
    ([exSearchLow, exSearchHigh].map Video.videoId).Nodup
    ∧ mergeFixtureVideos [] [exSearchLow, exSearchHigh] = [exSearchLow, exSearchHigh]
    ∧ ¬ SortedByScoreDesc (mergeFixtureVideos [] [exSearchLow, exSearchHigh]) :=
  ⟨by decide, by decide, by decide⟩

/-- C6 witness: the amended invariants evaluated on a concrete merge. -/
theorem C6_merge_invariants_witness :
    ((mergeFixtureVideos [exSkyVideo "w"] [exSearchLow, exSearchHigh]).map
      Video.videoId).Nodup :=
  (C6_merge_invariants.1 [exSkyVideo "w"] [exSearchLow, exSearchHigh]
    (by decide) (by decide) (by decide)).1

/-- C7 (amended): for a fixture whose trusted videos all come from the
enrichment pass (channel `Sky Sports`), every search video whose id matches
a trusted id is dropped — each merged entry is a trusted video or a search
video with a fresh id — and every trusted video is retained provided the
deduplicated candidate list fits the cap of 5; beyond the cap only the top
5 of the stable descending sort survive. -/
theorem C7_trusted_retention (trusted search : List Video)
    (hch : ∀ v ∈ trusted, v.channel = "Sky Sports") (hne : trusted ≠ []) :
    ((mergedCandidates trusted search).length ≤ 5 →
      ∀ v ∈ trusted, v ∈ mergeFixtureVideos trusted search)
    ∧ (∀ v ∈ mergeFixtureVideos trusted search,
        v ∈ trusted ∨ (v ∈ search ∧ v.videoId ∉ trusted.map Video.videoId)) := by
  have hsky : trusted.filter skyChannelB = trusted := by
    apply List.filter_eq_self.mpr
    intro v hv
    have hc := hch v hv
    unfold skyChannelB
    rw [hc]
    decide
  have hfil : trusted.filter skyChannelB ≠ [] := by rw [hsky]; exact hne
  have hmerge := mergeFixtureVideos_eq_of_sky trusted search hfil
  constructor
  · intro hlen v hv
    rw [hmerge, List.take_of_length_le (by rw [(sortByScoreDesc_perm _).length_eq]; exact hlen)]
    apply (sortByScoreDesc_perm _).mem_iff.mpr
    unfold mergedCandidates
    dsimp only
    rw [hsky]
    exact List.mem_append_left _ hv
  · intro v hv
    rw [hmerge] at hv
    have hv2 := (sortByScoreDesc_perm _).mem_iff.mp (List.mem_of_mem_take hv)
    unfold mergedCandidates at hv2
    dsimp only at hv2
    rw [hsky] at hv2
    rcases List.mem_append.mp hv2 with h | h
    · exact Or.inl h
    · rcases List.mem_filter.mp h with ⟨hs, hcond⟩
      simp only [Bool.not_eq_true', decide_eq_false_iff_not] at hcond
      exact Or.inr ⟨hs, hcond⟩

/-- C7 counterexample: six trusted enrichment-pass videos on one fixture —
the cap of 5 drops the sixth, so a trusted video is not retained. -/
theorem C7_trusted_retention_cex :
    (∀ v ∈ exSixSky, v.channel = "Sky Sports")
    ∧ exSkyVideo "f" ∈ exSixSky
    ∧ (exSkyVideo "f").videoId ∉ (mergeFixtureVideos exSixSky []).map Video.videoId :=
  ⟨by decide, by decide, by decide⟩

/-- C7 witness: a trusted video is retained in a concrete under-cap merge. -/
theorem C7_trusted_retention_witness :
    exSkyVideo "w" ∈ mergeFixtureVideos [exSkyVideo "w"] [exSearchLow, exSearchHigh] :=
  (C7_trusted_retention [exSkyVideo "w"] [exSearchLow, exSearchHigh]
    (by decide) (by decide)).1 (by decide) (exSkyVideo "w") (by decide)
